import Mathlib

/-!
Shallow embedding of the schedule execution engine of
`backend/src/services/scheduler.ts` (ghome-auto-timer), together with
theorems about its behaviour.

Numbers of the scripting runtime are modelled as rationals (`ℚ`), with
`Math.round`, truncation and the `%` remainder made explicit; a numeric
field that may hold the not-a-number value is modelled by `JSNum`.
Stateful parts (the module-level `lastExecutionTimes` map) are modelled by
explicit state passing, and the external collaborators (device-status
reads, command sends, the schedule store) by an `Env` record of oracles.
Execution order is captured by a trace of events.
-/

namespace GhomeTimer

/-! ## Runtime numeric helpers -/

/-- `Math.max` on two (non-NaN) numbers. -/
def jmax (a b : ℚ) : ℚ := if a < b then b else a

/-- `Math.min` on two (non-NaN) numbers. -/
def jmin (a b : ℚ) : ℚ := if b < a then b else a

/-- `Math.round`: round half toward positive infinity. -/
def jround (q : ℚ) : ℤ := ⌊q + 1 / 2⌋

/-- Truncation toward zero, as used by the `%` operator of the runtime. -/
def jtrunc (q : ℚ) : ℤ := if 0 ≤ q then ⌊q⌋ else ⌈q⌉

/-- The `%` remainder operator of the runtime: keeps the dividend's sign. -/
def jsRem (a b : ℚ) : ℚ := a - b * (jtrunc (a / b) : ℚ)

/-- A numeric value of the runtime: either not-a-number (the result of
`Number(raw)` on an unparseable raw value) or an actual rational. -/
inductive JSNum where
  | nan : JSNum
  | num (q : ℚ) : JSNum
deriving DecidableEq, Repr

/-- Division of a runtime number by 10 (`Number(raw) / 10`); not-a-number
propagates. -/
def JSNum.div10 : JSNum → JSNum
  | .nan => .nan
  | .num q => .num (q / 10)

/-! ## Data model (`backend/src/types/index.ts`) -/

inductive DayOfWeek where
  | sunday | monday | tuesday | wednesday | thursday | friday | saturday
deriving DecidableEq, Repr

/-- HSV triple as produced by `rgbToHsv` / carried by a TuyaLight command. -/
structure HSV where
  h : ℚ
  s : ℚ
  v : ℚ
deriving DecidableEq, Repr

/-- Value of a vendor instruction: boolean, number, string, or a
JSON-serialised HSV object (`JSON.stringify`). -/
inductive TuyaValue where
  | bool (b : Bool)
  | num (q : ℚ)
  | str (s : String)
  | json (hsv : HSV)
deriving DecidableEq, Repr

/-- One vendor instruction `{ code, value }`. -/
structure TuyaCmd where
  code : String
  value : TuyaValue
deriving DecidableEq, Repr

/-- The `DeviceCommand` tagged union. Optional numeric fields are `Option ℚ`
and optional strings `Option String`. -/
inductive DeviceCommand where
  | onOff (isOn : Bool)
  | brightness (percent : ℚ)
  | colorTemperature (temperatureK : ℚ)
  | colorRGB (r g b : ℚ)
  | thermostat (mode : String) (temperature : Option ℚ)
  | fanSpeed (speedPercent : ℚ)
  | tuyaAC (mode : String) (temperature : ℚ) (fan : String)
  | tuyaLight (brightness : Option ℚ) (colorTemp : Option ℚ)
      (colorHSV : Option HSV) (workMode : Option String)
deriving DecidableEq, Repr

inductive Metric where
  | temperature | humidity
deriving DecidableEq, Repr

inductive CmpOp where
  | gt | lt | ge | le
deriving DecidableEq, Repr

structure ActionCondition where
  sensorDeviceId : String
  sensorDeviceName : String
  metric : Metric
  operator : CmpOp
  value : ℚ
deriving DecidableEq, Repr

structure DeviceAction where
  deviceId : String
  deviceName : String
  command : DeviceCommand
  deviceCategory : Option String
  condition : Option ActionCondition
deriving DecidableEq, Repr

structure TimeSlot where
  id : String
  startTime : String
  actions : List DeviceAction
deriving DecidableEq, Repr

structure Schedule where
  id : String
  name : String
  enabled : Bool
  userId : String
  createdAt : ℕ
  updatedAt : ℕ
  daysOfWeek : List DayOfWeek
  timeSlots : List TimeSlot
deriving DecidableEq, Repr

/-! ## RGB to HSV conversion (`rgbToHsv`) -/

/-- Embedding of `rgbToHsv`: channels divided by 255, `max`/`min`/`diff`,
value = max, saturation = 0 when max = 0 else diff/max, hue via the
6-sector piecewise formula with the runtime's `%` remainder, rounded and
normalised into [0, 360). -/
def rgbToHsv (r0 g0 b0 : ℚ) : HSV :=
  let r := r0 / 255
  let g := g0 / 255
  let b := b0 / 255
  let mx := jmax r (jmax g b)
  let mn := jmin r (jmin g b)
  let diff := mx - mn
  let s : ℚ := if mx = 0 then 0 else diff / mx
  let v : ℚ := mx
  let h : ℚ :=
    if diff ≠ 0 then
      let h0 : ℚ :=
        if mx = r then jsRem ((g - b) / diff) 6
        else if mx = g then (b - r) / diff + 2
        else (r - g) / diff + 4
      let h1 : ℚ := (jround (h0 * 60) : ℚ)
      if h1 < 0 then h1 + 360 else h1
    else 0
  ⟨(jround h : ℚ), (jround (s * 1000) : ℚ), (jround (v * 1000) : ℚ)⟩

/-! ## Command translation (`convertToTuyaCommands`) -/

/-- Embedding of `convertToTuyaCommands`. Truthiness checks of the source
are explicit: a required string field is forwarded only when non-empty,
an optional numeric field guarded by `if (x)` only when present and
non-zero, and one guarded by `x != null` whenever present. -/
def convertToTuyaCommands (command : DeviceCommand)
    (deviceCategory : Option String) : List TuyaCmd :=
  match command with
  | .onOff isOn =>
      if deviceCategory = some "infrared_ac" ∨ deviceCategory = some "kt" then
        [⟨"switch", .bool isOn⟩]
      else if deviceCategory = some "dj" ∨ deviceCategory = some "dd" ∨
          deviceCategory = some "xdd" then
        [⟨"switch_led", .bool isOn⟩]
      else
        [⟨"switch_led", .bool isOn⟩, ⟨"switch_1", .bool isOn⟩, ⟨"switch", .bool isOn⟩]
  | .tuyaAC mode temperature fan =>
      [⟨"mode", .str mode⟩, ⟨"temp", .num temperature⟩, ⟨"fan", .str fan⟩]
  | .tuyaLight brightness colorTemp colorHSV workMode =>
      (match workMode with
        | some w => if w ≠ "" then [⟨"work_mode", .str w⟩] else []
        | none => []) ++
      (match brightness with
        | some q => [⟨"bright_value_v2", .num (jmax 10 ((jround (q * 10) : ℤ) : ℚ))⟩]
        | none => []) ++
      (match colorTemp with
        | some q => [⟨"temp_value_v2", .num q⟩]
        | none => []) ++
      (match colorHSV with
        | some hsv => [⟨"work_mode", .str "colour"⟩, ⟨"colour_data_v2", .json hsv⟩]
        | none => [])
  | .brightness percent =>
      [⟨"bright_value_v2", .num (jmax 10 ((jround (percent / 100 * 1000) : ℤ) : ℚ))⟩]
  | .colorTemperature temperatureK =>
      [⟨"temp_value_v2", .num ((jround ((temperatureK - 2700) / (6500 - 2700) * 1000) : ℤ) : ℚ)⟩]
  | .colorRGB r g b =>
      let hsv := rgbToHsv r g b
      [⟨"work_mode", .str "colour"⟩, ⟨"colour_data_v2", .json hsv⟩]
  | .thermostat mode temperature =>
      (if mode ≠ "" ∧ mode ≠ "off" then [⟨"mode", .str mode⟩] else []) ++
      (match temperature with
        | some t => if t ≠ 0 then [⟨"temp", .num t⟩] else []
        | none => [])
  | .fanSpeed speedPercent =>
      let speed : String :=
        if speedPercent > 66 then "high"
        else if speedPercent > 33 then "mid"
        else "low"
      [⟨"fan", .str speed⟩]

/-! ## Condition evaluation (`checkCondition`) -/

/-- The status object returned by a successful `getDeviceStatus`, restricted
to the two fields the scheduler reads. `none` models an absent field; a
present field carries the result of the runtime's `Number` conversion on
its raw value (`JSNum.nan` when unparseable). -/
structure DeviceStatus where
  va_temperature : Option JSNum
  va_humidity : Option JSNum
deriving DecidableEq, Repr

/-- Outcome of the device-status read performed by `checkCondition`:
an unsuccessful result (or missing status object), a thrown exception,
or a status object. -/
inductive StatusRead where
  | errorResult : StatusRead
  | thrown : StatusRead
  | success (st : DeviceStatus) : StatusRead
deriving DecidableEq, Repr

/-- Runtime comparison of a possibly-NaN sensor value with the threshold:
every comparison with not-a-number is false. -/
def jsCmp (op : CmpOp) (a : JSNum) (b : ℚ) : Bool :=
  match a with
  | .nan => false
  | .num q =>
      match op with
      | .gt => q > b
      | .lt => q < b
      | .ge => q ≥ b
      | .le => q ≤ b

/-- Embedding of `checkCondition`, parameterised by the outcome of the
device-status read. An unsuccessful read or a thrown exception yields
`true`; a temperature reading is divided by 10, a humidity reading used
as is; an absent field yields `true`; otherwise the operator is applied. -/
def checkCondition (condition : ActionCondition) (read : StatusRead) : Bool :=
  match read with
  | .errorResult => true
  | .thrown => true
  | .success st =>
      let sensorValue : Option JSNum :=
        match condition.metric with
        | .temperature => st.va_temperature.map JSNum.div10
        | .humidity => st.va_humidity
      match sensorValue with
      | none => true
      | some v => jsCmp condition.operator v condition.value

/-! ## Dedup state (`lastExecutionTimes`) and slot matching -/

/-- The module-level `lastExecutionTimes : Map<string, number>`, modelled as
an association list from execution key to last-fired epoch milliseconds. -/
abbrev Dedup := List (String × ℕ)

/-- `Map.get`: the entry for a key, if any. -/
def dedupGet (d : Dedup) (k : String) : Option ℕ :=
  (d.find? (fun p => p.1 = k)).map (fun p => p.2)

/-- `Map.set`: overwrite the entry for a key. -/
def dedupSet (d : Dedup) (k : String) (v : ℕ) : Dedup :=
  (k, v) :: d.filter (fun p => p.1 ≠ k)

/-- A wall-clock instant as the scheduler observes it: `Date.now()` epoch
milliseconds together with the derived current day (`getCurrentDay`) and
the current time in HH:MM form (`getCurrentTime`). -/
structure Instant where
  ms : ℕ
  day : DayOfWeek
  hhmm : String
deriving DecidableEq, Repr

/-- The dedup key `` `${schedule.id}-${slot.id}` ``. -/
def executionKey (schedule : Schedule) (slot : TimeSlot) : String :=
  schedule.id ++ "-" ++ slot.id

/-- Embedding of `shouldExecuteSlot`: active day, exact HH:MM match, then
the dedup check against `lastExecutionTimes` (a recorded time is compared
only when truthy, that is non-zero). The map is read, never written. -/
def shouldExecuteSlot (slot : TimeSlot) (schedule : Schedule) (now : Instant)
    (lastExecutionTimes : Dedup) : Bool :=
  if ¬ schedule.daysOfWeek.contains now.day then false
  else if slot.startTime ≠ now.hhmm then false
  else
    match dedupGet lastExecutionTimes (executionKey schedule slot) with
    | some lastExecution =>
        if lastExecution ≠ 0 ∧ now.ms - lastExecution < 2 * 60 * 1000 then false
        else true
    | none => true

/-! ## External collaborators and execution events -/

/-- Outcome of a `sendCommand` call: success, an unsuccessful result with a
message, or a thrown exception. -/
inductive SendOutcome where
  | ok : SendOutcome
  | fail (msg : String) : SendOutcome
  | thrown : SendOutcome
deriving DecidableEq, Repr

/-- Oracles for the three external collaborators: the device-status reader
(keyed by sensor device id), the device-command sender, and the schedule
store (`getAllEnabledSchedules`, keyed by the instant of the call; an
`error` value models a rejected read). -/
structure Env where
  statusOf : String → StatusRead
  send : String → List TuyaCmd → SendOutcome
  schedulesAt : Instant → Except Unit (List Schedule)

/-- Observable events of one execution, in program order. `recorded` is the
write to `lastExecutionTimes`; each action contributes exactly one further
event. -/
inductive Event where
  | recorded (key : String) (ms : ℕ) : Event
  | skippedCondition (deviceId : String) : Event
  | skippedEmpty (deviceId : String) : Event
  | sent (deviceId : String) (cmds : List TuyaCmd) (success : Bool) : Event
  | actionError (deviceId : String) : Event
deriving DecidableEq, Repr

/-- Translation and send for one action, after its guard (if any) has
passed: skip when the translation is empty, otherwise send; a thrown send
is caught by the per-action handler and becomes an `actionError` event. -/
def executeActionSend (env : Env) (action : DeviceAction) : Event :=
  let tuyaCommands := convertToTuyaCommands action.command action.deviceCategory
  if tuyaCommands = [] then .skippedEmpty action.deviceId
  else
    match env.send action.deviceId tuyaCommands with
    | .ok => .sent action.deviceId tuyaCommands true
    | .fail _ => .sent action.deviceId tuyaCommands false
    | .thrown => .actionError action.deviceId

/-- One iteration of the action loop of `executeTimeSlot`: evaluate the
guard (if present) and either skip or translate-and-send. -/
def executeAction (env : Env) (action : DeviceAction) : Event :=
  match action.condition with
  | some c =>
      if checkCondition c (env.statusOf c.sensorDeviceId) then
        executeActionSend env action
      else .skippedCondition action.deviceId
  | none => executeActionSend env action

/-- The action loop of `executeTimeSlot`, one event per action, in order;
a failing iteration never aborts the loop (per-action try/catch). -/
def runActions (env : Env) : List DeviceAction → List Event
  | [] => []
  | action :: rest => executeAction env action :: runActions env rest

/-- Embedding of `executeTimeSlot`: the dedup entry is written first, then
the actions run sequentially. Returns the updated map and the event trace
(the `recorded` event precedes every action event). -/
def executeTimeSlot (env : Env) (schedule : Schedule) (slot : TimeSlot)
    (now : Instant) (last : Dedup) : Dedup × List Event :=
  let key := executionKey schedule slot
  let last' := dedupSet last key now.ms
  (last', .recorded key now.ms :: runActions env slot.actions)

/-- The inner slot loop of `checkSchedules` for one schedule. -/
def runSlots (env : Env) (now : Instant) (schedule : Schedule) :
    List TimeSlot → Dedup → Dedup × List Event
  | [], last => (last, [])
  | slot :: rest, last =>
      if shouldExecuteSlot slot schedule now last then
        let r1 := executeTimeSlot env schedule slot now last
        let r2 := runSlots env now schedule rest r1.1
        (r2.1, r1.2 ++ r2.2)
      else runSlots env now schedule rest last

/-- The outer schedule loop of `checkSchedules`. -/
def runSchedules (env : Env) (now : Instant) :
    List Schedule → Dedup → Dedup × List Event
  | [], last => (last, [])
  | schedule :: rest, last =>
      let r1 := runSlots env now schedule schedule.timeSlots last
      let r2 := runSchedules env now rest r1.1
      (r2.1, r1.2 ++ r2.2)

/-- Embedding of `checkSchedules` (one tick): load the enabled schedules,
then run the due slots. The surrounding try/catch makes a failed
schedule-store read abandon the whole tick with no state change and no
events. -/
def checkSchedules (env : Env) (now : Instant) (last : Dedup) :
    Dedup × List Event :=
  match env.schedulesAt now with
  | .error _ => (last, [])
  | .ok schedules => runSchedules env now schedules last

/-- The periodic loop of `startScheduler`: one `checkSchedules` call per
instant of the tick sequence. Each tick is handled totally, so a failure
inside one tick never stops the later ticks. -/
def runTicks (env : Env) : List Instant → Dedup → Dedup × List Event
  | [], last => (last, [])
  | t :: rest, last =>
      let r1 := checkSchedules env t last
      let r2 := runTicks env rest r1.1
      (r2.1, r1.2 ++ r2.2)

/-- Result value of `triggerTimeSlot`. -/
inductive TriggerResult where
  | success : TriggerResult
  | scheduleNotFound : TriggerResult
  | slotNotFound : TriggerResult
  | errored : TriggerResult
deriving DecidableEq, Repr

/-- Embedding of `triggerTimeSlot` (manual trigger): look up the schedule
and the slot, then run `executeTimeSlot` directly, bypassing
`shouldExecuteSlot`; a thrown schedule-store read yields an error result. -/
def triggerTimeSlot (env : Env) (scheduleId slotId : String) (now : Instant)
    (last : Dedup) : TriggerResult × Dedup × List Event :=
  match env.schedulesAt now with
  | .error _ => (.errored, last, [])
  | .ok allSchedules =>
      match allSchedules.find? (fun s => s.id = scheduleId) with
      | none => (.scheduleNotFound, last, [])
      | some schedule =>
          match schedule.timeSlots.find? (fun s => s.id = slotId) with
          | none => (.slotNotFound, last, [])
          | some slot =>
              let r := executeTimeSlot env schedule slot now last
              (.success, r.1, r.2)

/-! ## Specification-side characterisations -/

/-- The pure day/time part of slot matching, from the specification's Slot
Matcher contract: the weekday is active and the start time equals the
current HH:MM. -/
def slotDueNow (slot : TimeSlot) (schedule : Schedule) (now : Instant) : Bool :=
  schedule.daysOfWeek.contains now.day && slot.startTime == now.hhmm

/-- A recent firing is recorded for a key: a truthy (non-zero) entry less
than the 2-minute window before `nowMs`. -/
def recentlyFired (d : Dedup) (key : String) (nowMs : ℕ) : Bool :=
  match dedupGet d key with
  | some t => t ≠ 0 && nowMs - t < 2 * 60 * 1000
  | none => false

/-- The failure modes of a guarded sensor read named by the fail-open
specification: an unsuccessful read, a thrown exception, or a status whose
selected metric field is absent. -/
def readFailsOrMetricAbsent (c : ActionCondition) (read : StatusRead) : Prop :=
  read = .errorResult ∨ read = .thrown ∨
    ∃ st, read = .success st ∧
      (match c.metric with
        | .temperature => st.va_temperature
        | .humidity => st.va_humidity) = none

/-- Whether an event is a `recorded` event for the given key. -/
def isRecorded (key : String) : Event → Bool
  | .recorded k _ => k = key
  | _ => false

/-- Count of `recorded` events for a key in a trace: the number of times
the (schedule, slot) pair fired. -/
def countRecorded (key : String) (tr : List Event) : ℕ :=
  tr.countP (isRecorded key)

/-! ## Shared lemmas -/

/-- Reading a key just written yields the written value. -/
theorem dedupGet_set_self (d : Dedup) (k : String) (v : ℕ) :
    dedupGet (dedupSet d k v) k = some v := by
  simp [dedupGet, dedupSet]

/-- `shouldExecuteSlot` is exactly the pure day/time match conjoined with
the absence of a recent recorded firing for the pair's key. -/
theorem shouldExecuteSlot_eq_due_and_not_recent (slot : TimeSlot)
    (schedule : Schedule) (now : Instant) (d : Dedup) :
    shouldExecuteSlot slot schedule now d =
      (slotDueNow slot schedule now &&
        !recentlyFired d (executionKey schedule slot) now.ms) := by
  unfold shouldExecuteSlot slotDueNow recentlyFired
  by_cases hday : now.day ∈ schedule.daysOfWeek
  · by_cases htime : slot.startTime = now.hhmm
    · cases hget : dedupGet d (executionKey schedule slot) with
      | none => simp [hday, htime, hget]
      | some t =>
          by_cases ht : t ≠ 0 ∧ now.ms - t < 2 * 60 * 1000
          · simp [hday, htime, hget, ht]
          · simp only [hday, htime, hget, ht]
            simp only [Decidable.not_and_iff_or_not, ne_eq, not_not,
              not_lt] at ht
            rcases ht with ht | ht <;>
              simp [hday, htime, hget, ht, Bool.and_comm]
    · simp [hday, htime]
  · simp [hday]

/-- No action-loop iteration produces a `recorded` event. -/
theorem isRecorded_executeAction (env : Env) (a : DeviceAction) (key : String) :
    isRecorded key (executeAction env a) = false := by
  unfold executeAction executeActionSend
  rcases a.condition with _ | c <;>
    simp only [] <;>
    repeat' first
      | rfl
      | split

/-- The action loop never records a firing. -/
theorem countRecorded_runActions (env : Env) (as : List DeviceAction)
    (key : String) : countRecorded key (runActions env as) = 0 := by
  induction as with
  | nil => rfl
  | cons a rest ih =>
      simp [countRecorded, runActions, List.countP_cons,
        isRecorded_executeAction, countRecorded] at ih ⊢
      exact ih

/-- The action loop is the pointwise image of the action list: one event
per action, in order. -/
theorem runActions_eq_map (env : Env) (as : List DeviceAction) :
    runActions env as = as.map (executeAction env) := by
  induction as with
  | nil => rfl
  | cons a rest ih => simp [runActions, ih]

/-- Counting over a concatenated trace adds the counts. -/
theorem countRecorded_append (key : String) (t1 t2 : List Event) :
    countRecorded key (t1 ++ t2) = countRecorded key t1 + countRecorded key t2 := by
  simp [countRecorded, List.countP_append]

/-! ## Claims -/

/-- C1, counterexample to the claim as stated: a successful read whose
`va_temperature` field is present but unparseable (NaN after the `Number`
conversion) makes `evaluate` return false for every operator, not true. -/
theorem c1_counterexample :
    checkCondition ⟨"sensor", "Sensor", .temperature, .gt, 21⟩
      (.success ⟨some .nan, none⟩) = false ∧
    checkCondition ⟨"sensor", "Sensor", .temperature, .lt, 21⟩
      (.success ⟨some .nan, none⟩) = false ∧
    checkCondition ⟨"sensor", "Sensor", .temperature, .ge, 21⟩
      (.success ⟨some .nan, none⟩) = false ∧
    checkCondition ⟨"sensor", "Sensor", .temperature, .le, 21⟩
      (.success ⟨some .nan, none⟩) = false := by
  refine ⟨?_, ?_, ?_, ?_⟩ <;> rfl

/-- C1 (amended): `evaluate` fails open — returns true regardless of the
condition's operator and threshold — whenever the device-status read fails
(error result or thrown exception) or the selected metric field is absent;
a present but unparseable field instead compares as NaN and yields false. -/
theorem c1_fail_open (c : ActionCondition) (read : StatusRead)
    (h : readFailsOrMetricAbsent c read) :
    checkCondition c read = true := by
  rcases h with h | h | ⟨st, hst, hfield⟩
  · subst h; rfl
  · subst h; rfl
  · subst hst
    cases hm : c.metric <;> rw [hm] at hfield <;> simp only [] at hfield <;>
      simp [checkCondition, hm, hfield]

theorem c1_fail_open_witness :
    readFailsOrMetricAbsent ⟨"sensor", "Sensor", .temperature, .lt, 5⟩
      .errorResult ∧
    checkCondition ⟨"sensor", "Sensor", .temperature, .lt, 5⟩
      .errorResult = true :=
  ⟨Or.inl rfl, c1_fail_open _ _ (Or.inl rfl)⟩

/-- C2, counterexample to the claim as stated: with slot, schedule and
instant held fixed, `shouldExecuteSlot` answers true against an empty
firing record and false once a firing of the same pair one millisecond
earlier is recorded — the result is not a function of (slot, schedule,
now) alone. -/
theorem c2_counterexample :
    shouldExecuteSlot ⟨"slot1", "07:00", []⟩
      ⟨"sch1", "Morning", true, "user", 0, 0, [.monday], []⟩
      ⟨600000, .monday, "07:00"⟩ [] = true ∧
    shouldExecuteSlot ⟨"slot1", "07:00", []⟩
      ⟨"sch1", "Morning", true, "user", 0, 0, [.monday], []⟩
      ⟨600000, .monday, "07:00"⟩ [("sch1-slot1", 599999)] = false := by
  exact ⟨by decide, by decide⟩

/-- C2 (amended): `shouldExecuteSlot` is side-effect free (it only reads
the firing record) but not stateless: its result is the pure day/time
match of (slot, schedule, now) conjoined with the absence of a recent
recorded firing of the (schedule, slot) pair, so it depends on the record
exactly through that pair's entry. -/
theorem c2_isDue_characterisation (slot : TimeSlot) (schedule : Schedule)
    (now : Instant) (d : Dedup) :
    shouldExecuteSlot slot schedule now d =
      (slotDueNow slot schedule now &&
        !recentlyFired d (executionKey schedule slot) now.ms) :=
  shouldExecuteSlot_eq_due_and_not_recent slot schedule now d

/-- C3, counterexample to the claim as stated: at 0 percent the translated
brightness value is 10, while `round(0 / 100 * 1000)` is 0 — the code
clamps the scaled value from below at 10. -/
theorem c3_counterexample :
    convertToTuyaCommands (.brightness 0) none =
      [⟨"bright_value_v2", .num 10⟩] ∧
    jround (0 / 100 * 1000) = 0 := by
  constructor
  · norm_num [convertToTuyaCommands, jmax, jround]
  · norm_num [jround]

/-- C3 (amended): for every percent value and every category the
translation of a Brightness command is exactly one instruction carrying
the vendor brightness code with value `max(10, round(p / 100 * 1000))`;
in particular 50 percent yields value 500. -/
theorem c3_brightness_scaling (p : ℚ) (cat : Option String) :
    convertToTuyaCommands (.brightness p) cat =
      [⟨"bright_value_v2", .num (jmax 10 ((jround (p / 100 * 1000) : ℤ) : ℚ))⟩] ∧
    convertToTuyaCommands (.brightness 50) none =
      [⟨"bright_value_v2", .num 500⟩] := by
  constructor
  · rfl
  · norm_num [convertToTuyaCommands, jmax, jround]

/-- C4, counterexample to the claim as stated: a Thermostat command whose
temperature field is present with value 0 yields no temperature
instruction (the truthiness guard drops zero), and a present but empty
mode — which is not the sentinel "off" — is likewise dropped. -/
theorem c4_counterexample :
    convertToTuyaCommands (.thermostat "heat" (some 0)) none =
      [⟨"mode", .str "heat"⟩] ∧
    convertToTuyaCommands (.thermostat "" none) none = [] := by
  constructor <;> simp [convertToTuyaCommands]

/-- C4 (amended): a Thermostat translation contains a mode instruction
exactly when the mode is truthy (non-empty) and not the sentinel "off",
and contains a temperature instruction exactly when the temperature field
is present and truthy (non-zero). -/
theorem c4_thermostat_translation (mode : String) (temperature : Option ℚ)
    (cat : Option String) :
    ((∃ v, TuyaCmd.mk "mode" v ∈
        convertToTuyaCommands (.thermostat mode temperature) cat) ↔
      (mode ≠ "" ∧ mode ≠ "off")) ∧
    ((∃ v, TuyaCmd.mk "temp" v ∈
        convertToTuyaCommands (.thermostat mode temperature) cat) ↔
      (∃ t, temperature = some t ∧ t ≠ 0)) := by
  rcases temperature with _ | t
  · by_cases h1 : mode = "" <;> by_cases h2 : mode = "off" <;>
      simp_all [convertToTuyaCommands]
  · by_cases h1 : mode = "" <;> by_cases h2 : mode = "off" <;>
      by_cases h3 : t = 0 <;>
        simp_all [convertToTuyaCommands]

/-- C6: the RGB to HSV conversion realises the classic hexagonal-sector
algorithm with hue in degrees and saturation/value scaled to 0–1000: pure
red maps to hue 0 at full saturation and value (1000), pure green to hue
120, pure blue to hue 240, and white to saturation 0. -/
theorem c6_rgbToHsv_sectors :
    rgbToHsv 255 0 0 = ⟨0, 1000, 1000⟩ ∧
    (rgbToHsv 0 255 0).h = 120 ∧
    (rgbToHsv 0 0 255).h = 240 ∧
    (rgbToHsv 255 255 255).s = 0 := by
  refine ⟨?_, ?_, ?_, ?_⟩ <;>
    norm_num [rgbToHsv, jmax, jmin, jround, jsRem, jtrunc, HSV.mk.injEq]

/-- C10: the Condition Evaluator itself rescales the raw reading: with a
parsed temperature value `q` the operator is applied to `q / 10`, with a
parsed humidity value `q` to `q` unscaled. -/
theorem c10_metric_scaling (c : ActionCondition) (st : DeviceStatus) (q : ℚ) :
    (c.metric = .temperature → st.va_temperature = some (.num q) →
      checkCondition c (.success st) =
        jsCmp c.operator (.num (q / 10)) c.value) ∧
    (c.metric = .humidity → st.va_humidity = some (.num q) →
      checkCondition c (.success st) = jsCmp c.operator (.num q) c.value) := by
  constructor <;> intro hm hf <;>
    simp [checkCondition, hm, hf, JSNum.div10]

theorem c10_metric_scaling_witness :
    checkCondition ⟨"sensor", "Sensor", .temperature, .gt, 2⟩
      (.success ⟨some (.num 25), none⟩) = jsCmp .gt (.num (25 / 10)) 2 :=
  (c10_metric_scaling ⟨"sensor", "Sensor", .temperature, .gt, 2⟩
    ⟨some (.num 25), none⟩ 25).1 rfl rfl

/-- C5: for a slot due at the first of two ticks that fall within the
2-minute suppression window, the pair's actions fire exactly once across
both ticks — whether or not the slot still matches at the second tick —
and `executeTimeSlot` records the last-fired entry (map write and
`recorded` trace head) before any of the slot's actions contribute an
event. -/
theorem c5_dedup_exactly_once (env : Env) (schedule : Schedule)
    (slot : TimeSlot) (t1 t2 : Instant) (d : Dedup)
    (hslots : schedule.timeSlots = [slot])
    (hs1 : env.schedulesAt t1 = .ok [schedule])
    (hs2 : env.schedulesAt t2 = .ok [schedule])
    (hday1 : schedule.daysOfWeek.contains t1.day = true)
    (htime1 : slot.startTime = t1.hhmm)
    (hnew : dedupGet d (executionKey schedule slot) = none)
    (hpos : 0 < t1.ms) (hwin : t2.ms - t1.ms < 2 * 60 * 1000) :
    countRecorded (executionKey schedule slot) ((runTicks env [t1, t2] d).2) = 1 ∧
    ∀ (env' : Env) (schedule' : Schedule) (slot' : TimeSlot) (now' : Instant)
      (d' : Dedup),
      ((executeTimeSlot env' schedule' slot' now' d').2).head? =
        some (.recorded (executionKey schedule' slot') now'.ms) ∧
      (executeTimeSlot env' schedule' slot' now' d').1 =
        dedupSet d' (executionKey schedule' slot') now'.ms := by
  constructor
  · have hmem1 : t1.day ∈ schedule.daysOfWeek := by simpa using hday1
    have hdue1 : shouldExecuteSlot slot schedule t1 d = true := by
      rw [shouldExecuteSlot_eq_due_and_not_recent]
      simp [slotDueNow, recentlyFired, hmem1, htime1, hnew]
    have hne : t1.ms ≠ 0 := Nat.pos_iff_ne_zero.mp hpos
    have hsup2 : shouldExecuteSlot slot schedule t2
        (dedupSet d (executionKey schedule slot) t1.ms) = false := by
      rw [shouldExecuteSlot_eq_due_and_not_recent]
      simp [recentlyFired, dedupGet_set_self, hne, hwin]
    have h0 := countRecorded_runActions env slot.actions
      (executionKey schedule slot)
    simp only [runTicks, checkSchedules, hs1, hs2, hslots, runSlots, hdue1,
      executeTimeSlot, if_true, hsup2, Bool.false_eq_true, if_false,
      runSchedules, List.append_nil, List.nil_append]
    simp [countRecorded, List.countP_cons, isRecorded] at h0 ⊢
    exact h0
  · intro env' schedule' slot' now' d'
    exact ⟨rfl, rfl⟩

def slotC5 : TimeSlot := ⟨"slot1", "07:00", []⟩

def schedC5 : Schedule :=
  ⟨"sch1", "Morning", true, "user1", 0, 0, [.monday], [slotC5]⟩

def envC5 : Env where
  statusOf := fun _ => .errorResult
  send := fun _ _ => .ok
  schedulesAt := fun _ => .ok [schedC5]

theorem c5_dedup_exactly_once_witness :
    countRecorded (executionKey schedC5 slotC5)
      ((runTicks envC5
        [⟨60000, .monday, "07:00"⟩, ⟨120000, .monday, "07:00"⟩] []).2) = 1 :=
  (c5_dedup_exactly_once envC5 schedC5 slotC5 ⟨60000, .monday, "07:00"⟩
    ⟨120000, .monday, "07:00"⟩ [] rfl rfl rfl (by decide) rfl rfl
    (by decide) (by decide)).1

/-- C7: actions of one slot run sequentially with per-action failure
isolation: in a slot of three actions where the second's guard evaluates
false and the third's send fails, the trace still contains the first
action's successful send followed by the second's skip and the third's
failed send attempt; moreover for every slot the trace carries exactly one
event per action after the `recorded` head, so no failure ever drops a
later action. -/
theorem c7_action_isolation (env : Env) (schedule : Schedule)
    (slot : TimeSlot) (now : Instant) (d : Dedup)
    (a1 a2 a3 : DeviceAction) (c2 : ActionCondition)
    (hacts : slot.actions = [a1, a2, a3])
    (h1c : a1.condition = none)
    (h1t : convertToTuyaCommands a1.command a1.deviceCategory ≠ [])
    (h1s : env.send a1.deviceId
      (convertToTuyaCommands a1.command a1.deviceCategory) = .ok)
    (h2c : a2.condition = some c2)
    (h2f : checkCondition c2 (env.statusOf c2.sensorDeviceId) = false)
    (h3c : a3.condition = none)
    (h3t : convertToTuyaCommands a3.command a3.deviceCategory ≠ [])
    (h3s : ∃ msg, env.send a3.deviceId
      (convertToTuyaCommands a3.command a3.deviceCategory) = .fail msg) :
    (executeTimeSlot env schedule slot now d).2 =
      [.recorded (executionKey schedule slot) now.ms,
       .sent a1.deviceId (convertToTuyaCommands a1.command a1.deviceCategory) true,
       .skippedCondition a2.deviceId,
       .sent a3.deviceId (convertToTuyaCommands a3.command a3.deviceCategory) false] ∧
    ∀ slot' : TimeSlot,
      ((executeTimeSlot env schedule slot' now d).2).length =
        slot'.actions.length + 1 := by
  obtain ⟨msg, h3s⟩ := h3s
  constructor
  · simp only [executeTimeSlot, hacts, runActions, executeAction,
      executeActionSend, h1c, h2c, h2f, h3c]
    simp [h1t, h1s, h3t, h3s]
  · intro slot'
    simp [executeTimeSlot, runActions_eq_map]

def condC7 : ActionCondition := ⟨"sensor1", "Sensor", .humidity, .gt, 100⟩

def envC7 : Env where
  statusOf := fun _ => .success ⟨none, some (.num 30)⟩
  send := fun dev _ => if dev = "dev3" then .fail "network error" else .ok
  schedulesAt := fun _ => .ok []

def act1C7 : DeviceAction := ⟨"dev1", "Lamp", .onOff true, none, none⟩

def act2C7 : DeviceAction := ⟨"dev2", "Heater", .onOff false, none, some condC7⟩

def act3C7 : DeviceAction := ⟨"dev3", "Fan", .onOff true, none, none⟩

def slotC7 : TimeSlot := ⟨"slot7", "07:00", [act1C7, act2C7, act3C7]⟩

def schedC7 : Schedule :=
  ⟨"sch7", "Morning", true, "user7", 0, 0, [.monday], [slotC7]⟩

theorem c7_action_isolation_witness :
    (executeTimeSlot envC7 schedC7 slotC7 ⟨600000, .monday, "07:00"⟩ []).2 =
      [.recorded (executionKey schedC7 slotC7) 600000,
       .sent act1C7.deviceId
         (convertToTuyaCommands act1C7.command act1C7.deviceCategory) true,
       .skippedCondition act2C7.deviceId,
       .sent act3C7.deviceId
         (convertToTuyaCommands act3C7.command act3C7.deviceCategory) false] :=
  (c7_action_isolation envC7 schedC7 slotC7 ⟨600000, .monday, "07:00"⟩ []
    act1C7 act2C7 act3C7 condC7 rfl rfl (by decide) (by decide) rfl
    (by decide) rfl (by decide) ⟨"network error", by decide⟩).1

/-- C8: a failed schedule-store read abandons the whole tick — the dedup
state is untouched and no slot of any schedule produces an event — and the
failure does not escape the periodic loop: a two-tick run whose first read
throws behaves exactly as the second tick alone. -/
theorem c8_store_failure_abandons_tick (env : Env) (t1 t2 : Instant)
    (d : Dedup) (hfail : env.schedulesAt t1 = .error ()) :
    checkSchedules env t1 d = (d, []) ∧
    runTicks env [t1, t2] d = checkSchedules env t2 d := by
  constructor
  · simp [checkSchedules, hfail]
  · simp [runTicks, checkSchedules, hfail]

def envC8 : Env where
  statusOf := fun _ => .errorResult
  send := fun _ _ => .ok
  schedulesAt := fun _ => .error ()

theorem c8_store_failure_abandons_tick_witness :
    checkSchedules envC8 ⟨60000, .monday, "07:00"⟩ [] = ([], []) :=
  (c8_store_failure_abandons_tick envC8 ⟨60000, .monday, "07:00"⟩
    ⟨120000, .monday, "07:01"⟩ [] rfl).1

/-- C9: a manual trigger is visible to the dedup state: a successful
`triggerTimeSlot` records the pair's last-fired entry before its actions
run (head of the trace), and any periodic check of the same (schedule,
slot) pair within the following 2 minutes is suppressed. -/
theorem c9_manual_trigger_feeds_dedup (env : Env)
    (scheduleId slotId : String) (now : Instant) (d : Dedup)
    (ss : List Schedule) (schedule : Schedule) (slot : TimeSlot)
    (hread : env.schedulesAt now = .ok ss)
    (hfind : ss.find? (fun s => s.id = scheduleId) = some schedule)
    (hslot : schedule.timeSlots.find? (fun s => s.id = slotId) = some slot)
    (hpos : 0 < now.ms) :
    (triggerTimeSlot env scheduleId slotId now d).1 = .success ∧
    ((triggerTimeSlot env scheduleId slotId now d).2.2).head? =
      some (.recorded (executionKey schedule slot) now.ms) ∧
    ∀ now' : Instant, now'.ms - now.ms < 2 * 60 * 1000 →
      shouldExecuteSlot slot schedule now'
        (triggerTimeSlot env scheduleId slotId now d).2.1 = false := by
  have hne : now.ms ≠ 0 := Nat.pos_iff_ne_zero.mp hpos
  refine ⟨?_, ?_, ?_⟩
  · simp [triggerTimeSlot, hread, hfind, hslot]
  · simp [triggerTimeSlot, hread, hfind, hslot, executeTimeSlot]
  · intro now' hwin
    rw [shouldExecuteSlot_eq_due_and_not_recent]
    simp [triggerTimeSlot, hread, hfind, hslot, executeTimeSlot,
      recentlyFired, dedupGet_set_self, hne, hwin]

def slotC9 : TimeSlot := ⟨"slot9", "21:30", []⟩

def schedC9 : Schedule :=
  ⟨"sch9", "Evening", true, "user9", 0, 0, [.friday], [slotC9]⟩

def envC9 : Env where
  statusOf := fun _ => .errorResult
  send := fun _ _ => .ok
  schedulesAt := fun _ => .ok [schedC9]

theorem c9_manual_trigger_feeds_dedup_witness :
    shouldExecuteSlot slotC9 schedC9 ⟨760000, .friday, "21:30"⟩
      (triggerTimeSlot envC9 "sch9" "slot9" ⟨700000, .friday, "21:30"⟩ []).2.1 =
      false :=
  (c9_manual_trigger_feeds_dedup envC9 "sch9" "slot9"
    ⟨700000, .friday, "21:30"⟩ [] [schedC9] schedC9 slotC9 rfl (by decide)
    (by decide) (by decide)).2.2 ⟨760000, .friday, "21:30"⟩ (by decide)

end GhomeTimer
